import Mathlib

/-!
Shallow embedding of the response-classification logic of the
`buy-me-a-coffee` Rust client library (src/src/lib.rs).

The library issues GET requests and classifies each completed HTTP
response into success, a client fault, a server fault, or a
transport/decode error.  We model the JSON values a body can parse to,
the serde-derived deserializers for `ServerError` and `Page<T>`
(untagged union `UntaggedResult<T>` tries `ServerError` first), the
content-type HTML workaround, and the `Debug` masking of the bearer
token.
-/

namespace BuyMeACoffee

/-- A parsed JSON value.  Numbers are modelled as integers (all numeric
fields of the library are integral Rust types). -/
inductive Json where
  | null : Json
  | bool : Bool → Json
  | num : Int → Json
  | str : String → Json
  | arr : List Json → Json
  | obj : List (String × Json) → Json

/-- Decode a JSON value as a Rust `u16` (serde: a number in `[0, 2^16)`). -/
def decodeU16 : Json → Option Nat
  | .num n => if 0 ≤ n ∧ n < 65536 then some n.toNat else none
  | _ => none

/-- Decode a JSON value as a Rust `Option<u16>` (serde: `null` gives
`None`, a `u16` number gives `Some`). -/
def decodeOptU16 : Json → Option (Option Nat)
  | .null => some none
  | j => (decodeU16 j).map some

/-- `ServerError` from src/src/lib.rs: an optional numeric `error_code`
and a required `reason` message (serde alias `error`). -/
structure ServerError where
  error_code : Option Nat
  reason : String
deriving DecidableEq

/-- Serde-style struct deserialization of `ServerError` from the entries
of a JSON object: entries are visited in order, `error_code` parses as
`Option<u16>`, `reason` (or its alias `error`) parses as a string,
duplicates are an error, unknown fields are ignored, a missing
`error_code` defaults to `none`, a missing `reason` is an error. -/
def seFold : List (String × Json) → Option (Option Nat) → Option String → Option ServerError
  | [], codeSeen, reasonSeen =>
    match reasonSeen with
    | some r => some ⟨codeSeen.getD none, r⟩
    | none => none
  | (k, v) :: rest, codeSeen, reasonSeen =>
    if k = "error_code" then
      match codeSeen with
      | some _ => none
      | none =>
        match decodeOptU16 v with
        | some c => seFold rest (some c) reasonSeen
        | none => none
    else if k = "reason" ∨ k = "error" then
      match reasonSeen with
      | some _ => none
      | none =>
        match v with
        | .str s => seFold rest codeSeen (some s)
        | _ => none
    else seFold rest codeSeen reasonSeen

/-- Deserialize a `ServerError` from a JSON value: only objects match. -/
def ServerError.deserialize : Json → Option ServerError
  | .obj fields => seFold fields none none
  | _ => none

/-- `Page<T>` from src/src/lib.rs: one page of list results. -/
structure Page (T : Type) where
  current_page : Nat
  data : List T
  «from» : Nat
  last_page : Nat
  per_page : Nat
  «to» : Nat
  total : Nat

/-- A field of a serde struct without aliases succeeds exactly when the
key occurs once among the object's entries (missing and duplicate keys
are both deserialization errors; unknown keys are ignored). -/
def lookupUnique (k : String) (fields : List (String × Json)) : Option Json :=
  match fields.filter (fun p => p.1 = k) with
  | [p] => some p.2
  | _ => none

/-- Decode a JSON value as a Rust `Vec` with the given element decoder. -/
def decodeArr {T : Type} (dec : Json → Option T) : Json → Option (List T)
  | .arr xs => xs.mapM dec
  | _ => none

/-- Serde-style deserialization of `Page<T>`, parameterised by the
element type's decoder.  Every field is required. -/
def Page.deserialize {T : Type} (dec : Json → Option T) : Json → Option (Page T)
  | .obj fields => do
    let cp ← lookupUnique "current_page" fields >>= decodeU16
    let d ← lookupUnique "data" fields >>= decodeArr dec
    let f ← lookupUnique "from" fields >>= decodeU16
    let lp ← lookupUnique "last_page" fields >>= decodeU16
    let pp ← lookupUnique "per_page" fields >>= decodeU16
    let t ← lookupUnique "to" fields >>= decodeU16
    let tot ← lookupUnique "total" fields >>= decodeU16
    pure ⟨cp, d, f, lp, pp, t, tot⟩
  | _ => none

/-- The cause wrapped by a transport/decode failure: the body was not
JSON at all, or it matched neither variant of the untagged union. -/
inductive ReqwestCause where
  | jsonSyntax : ReqwestCause
  | noVariantMatch : ReqwestCause
deriving DecidableEq

/-- The error taxonomy of src/src/lib.rs: `Reqwest` wraps a transport or
decode failure, `Client` carries the HTTP status, `Server` carries a
structured API error. -/
inductive Error where
  | Reqwest : ReqwestCause → Error
  | Client : Nat → Error
  | Server : ServerError → Error
deriving DecidableEq

/-- `UntaggedResult<T>`: the untagged serde union, `Err(ServerError)`
declared before `Ok(T)`. -/
inductive UntaggedResult (T : Type) where
  | Err : ServerError → UntaggedResult T
  | Ok : T → UntaggedResult T

/-- Untagged deserialization: variants are tried in declaration order,
and the first that deserializes the value wins, so the `ServerError`
shape is tried before the success shape. -/
def UntaggedResult.deserialize {T : Type} (dec : Json → Option T) (j : Json) :
    Option (UntaggedResult T) :=
  match ServerError.deserialize j with
  | some e => some (.Err e)
  | none => (dec j).map .Ok

/-- `impl Into<Result<T>> for UntaggedResult<T>`. -/
def UntaggedResult.intoResult {T : Type} : UntaggedResult T → Except Error T
  | .Err e => .error (.Server e)
  | .Ok t => .ok t

/-- A content-type header value: `to_str()` either yields a string or
fails (non-visible-ASCII bytes). -/
inductive HeaderValue where
  | valid : String → HeaderValue
  | invalid : HeaderValue

/-- `HeaderValue::to_str().ok()`. -/
def headerToStr : HeaderValue → Option String
  | .valid s => some s
  | .invalid => none

/-- `needle.isPrefixOf (hay.drop i)` for some valid start index, which
is exactly Rust's `str::contains` substring test at the level of
characters. -/
def listContainsSub (hay needle : List Char) : Bool :=
  (List.range (hay.length + 1)).any (fun i => needle.isPrefixOf (hay.drop i))

/-- Rust `s.contains(pat)`: substring containment. -/
def strContains (s pat : String) : Bool :=
  listContainsSub s.data pat.data

/-- A completed HTTP response as the classifier sees it: a status code,
an optional content-type header, and the body's JSON parse (with `none`
standing for a body that is not JSON at all). -/
structure Response where
  status : Nat
  contentType : Option HeaderValue
  body : Option Json

/-- The HTML workaround test of `Client::get`:
`headers().get(CONTENT_TYPE).and_then(|ct|
ct.to_str().map(|s| s.contains("html")).ok()).unwrap_or_default()`. -/
def Response.isHtml (r : Response) : Bool :=
  (r.contentType.bind (fun ct => (headerToStr ct).map (fun s => strContains s "html"))).getD false

/-- `StatusCode::UNAUTHORIZED`. -/
def unauthorized : Nat := 401

/-- `StatusCode::is_client_error()`: the 4xx class. -/
def isClientError (status : Nat) : Prop := 400 ≤ status ∧ status < 500

instance (status : Nat) : Decidable (isClientError status) := by
  unfold isClientError; infer_instance

/-- The client: a transport handle (not modelled) and the bearer token. -/
structure Client where
  token : String

/-- `Client::new`. -/
def Client.new (token : String) : Client := ⟨token⟩

/-- The token field printed by `Client`'s `Debug` implementation:
`String::from_iter(vec!['*'; self.token.len()])`, where `len()` is the
byte length of the token. -/
def Client.debugTokenField (c : Client) : String :=
  String.mk (List.replicate c.token.utf8ByteSize '*')

/-- The response-classification logic of `Client::get`: the HTML
content-type workaround synthesizes a 401 client fault; then a 4xx
status is a client fault carrying that status; otherwise the body is
decoded once as `UntaggedResult<T>` and converted into the result, a
decode failure becoming a wrapped transport error. -/
def Client.get {T : Type} (_self : Client) (dec : Json → Option T) (r : Response) :
    Except Error T :=
  if r.isHtml then .error (.Client unauthorized)
  else if isClientError r.status then .error (.Client r.status)
  else
    match r.body with
    | none => .error (.Reqwest .jsonSyntax)
    | some j =>
      match UntaggedResult.deserialize dec j with
      | some u => u.intoResult
      | none => .error (.Reqwest .noVariantMatch)

/-- The JSON body of the empty-page example in the spec:
`{"current_page":1,"data":[],"from":0,"last_page":1,"per_page":5,"to":0,"total":0}`. -/
def pageBody : Json :=
  .obj [("current_page", .num 1), ("data", .arr []), ("from", .num 0),
        ("last_page", .num 1), ("per_page", .num 5), ("to", .num 0), ("total", .num 0)]

lemma decodeU16_natCast (n : Nat) (h : n < 65536) : decodeU16 (.num (n : Int)) = some n := by
  simp [decodeU16]
  omega

lemma mem_of_listContainsSub {hay needle : List Char} (h : listContainsSub hay needle = true) :
    ∀ x ∈ needle, x ∈ hay := by
  unfold listContainsSub at h
  rw [List.any_eq_true] at h
  obtain ⟨i, _, hp⟩ := h
  rw [List.isPrefixOf_iff_prefix] at hp
  intro x hx
  exact List.mem_of_mem_drop (hp.sublist.subset hx)

lemma seDeserialize_obj (l : List (String × Json)) :
    ServerError.deserialize (.obj l) = seFold l none none := rfl

lemma seFold_nil_some (cs : Option (Option Nat)) (s : String) :
    seFold [] cs (some s) = some ⟨cs.getD none, s⟩ := rfl

lemma seFold_reason_cons (s : String) (cs : Option (Option Nat)) (rest : List (String × Json)) :
    seFold (("reason", .str s) :: rest) cs none = seFold rest cs (some s) := rfl

lemma seFold_error_cons (s : String) (cs : Option (Option Nat)) (rest : List (String × Json)) :
    seFold (("error", .str s) :: rest) cs none = seFold rest cs (some s) := rfl

lemma decodeOptU16_natCast (n : Nat) (h : n < 65536) :
    decodeOptU16 (.num (n : Int)) = some (some n) := by
  simp [decodeOptU16, decodeU16_natCast n h]

lemma seFold_code_cons (v : Json) (c : Option Nat) (hv : decodeOptU16 v = some c)
    (rs : Option String) (rest : List (String × Json)) :
    seFold (("error_code", v) :: rest) none rs = seFold rest (some c) rs := by
  show (match decodeOptU16 v with
        | some c => seFold rest (some c) rs
        | none => none) = seFold rest (some c) rs
  rw [hv]

lemma pageDeserialize_obj {T : Type} (dec : Json → Option T) (fields : List (String × Json)) :
    Page.deserialize dec (.obj fields) =
      (lookupUnique "current_page" fields >>= decodeU16).bind (fun cp =>
      (lookupUnique "data" fields >>= decodeArr dec).bind (fun d =>
      (lookupUnique "from" fields >>= decodeU16).bind (fun f =>
      (lookupUnique "last_page" fields >>= decodeU16).bind (fun lp =>
      (lookupUnique "per_page" fields >>= decodeU16).bind (fun pp =>
      (lookupUnique "to" fields >>= decodeU16).bind (fun t =>
      (lookupUnique "total" fields >>= decodeU16).bind (fun tot =>
      some ⟨cp, d, f, lp, pp, t, tot⟩)))))))  := rfl

lemma Page.deserialize_spec {T : Type} (dec : Json → Option T) (fields : List (String × Json))
    (jcp jd jf jlp jpp jt jtot : Json) (cp : Nat) (ds : List T) (f lp pp t tot : Nat)
    (l1 : lookupUnique "current_page" fields = some jcp) (d1 : decodeU16 jcp = some cp)
    (l2 : lookupUnique "data" fields = some jd) (d2 : decodeArr dec jd = some ds)
    (l3 : lookupUnique "from" fields = some jf) (d3 : decodeU16 jf = some f)
    (l4 : lookupUnique "last_page" fields = some jlp) (d4 : decodeU16 jlp = some lp)
    (l5 : lookupUnique "per_page" fields = some jpp) (d5 : decodeU16 jpp = some pp)
    (l6 : lookupUnique "to" fields = some jt) (d6 : decodeU16 jt = some t)
    (l7 : lookupUnique "total" fields = some jtot) (d7 : decodeU16 jtot = some tot) :
    Page.deserialize dec (.obj fields) = some ⟨cp, ds, f, lp, pp, t, tot⟩ := by
  rw [pageDeserialize_obj]
  simp only [l1, l2, l3, l4, l5, l6, l7, Option.bind_eq_bind', Option.some_bind', d1, d2, d3,
    d4, d5, d6, d7]

lemma get_ok {T : Type} (c : Client) (dec : Json → Option T) (r : Response) (j : Json) (t : T)
    (hhtml : r.isHtml = false) (hstat : ¬ isClientError r.status) (hbody : r.body = some j)
    (hse : ServerError.deserialize j = none) (ht : dec j = some t) :
    c.get dec r = .ok t := by
  simp [Client.get, hhtml, hstat, hbody, UntaggedResult.deserialize, hse, ht,
    UntaggedResult.intoResult]

/-- Claim C2: every response whose content-type indicates HTML is
classified as a client fault with status 401, whatever its actual status
code and body. -/
theorem claim2_html_is_unauthorized {T : Type} (c : Client) (dec : Json → Option T)
    (r : Response) (h : r.isHtml = true) :
    c.get dec r = .error (.Client 401) := by
  simp [Client.get, h, unauthorized]

/-- Claim C2 witness: a status-500 `text/html` response with an
arbitrary body classifies as a 401 client fault. -/
theorem claim2_witness :
    (Client.new "tok").get decodeU16 ⟨500, some (.valid "text/html"), some .null⟩ =
      .error (.Client 401) :=
  claim2_html_is_unauthorized (Client.new "tok") decodeU16
    ⟨500, some (.valid "text/html"), some .null⟩ (by decide)

/-- Claim C3: every 4xx response that is not HTML-typed is classified as
a client fault carrying exactly that status, independently of the body. -/
theorem claim3_client_fault_status {T : Type} (c : Client) (dec : Json → Option T)
    (r : Response) (hhtml : r.isHtml = false) (hstat : isClientError r.status) :
    c.get dec r = .error (.Client r.status) := by
  simp [Client.get, hhtml, hstat]

/-- Claim C3 witness: a 404 `application/json` response with body `{}`
classifies as a 404 client fault. -/
theorem claim3_witness :
    (Client.new "tok").get decodeU16 ⟨404, some (.valid "application/json"), some (.obj [])⟩ =
      .error (.Client 404) :=
  claim3_client_fault_status (Client.new "tok") decodeU16
    ⟨404, some (.valid "application/json"), some (.obj [])⟩ (by decide) (by decide)

/-- Claim C7: classification is deterministic and stateless — two
clients, whatever their internal state, classify the same response
identically, so two invocations on identical inputs give the same
outcome. -/
theorem claim7_stateless {T : Type} (c₁ c₂ : Client) (dec : Json → Option T) (r : Response) :
    c₁.get dec r = c₂.get dec r := rfl

/-- Claim C9: a body that deserializes both as the server-error shape
and as the target type classifies as a server fault, because the error
variant of the untagged union is tried first. -/
theorem claim9_error_variant_wins {T : Type} (c : Client) (dec : Json → Option T)
    (r : Response) (j : Json) (e : ServerError) (t : T)
    (hhtml : r.isHtml = false) (hstat : ¬ isClientError r.status) (hbody : r.body = some j)
    (he : ServerError.deserialize j = some e) (_ht : dec j = some t) :
    c.get dec r = .error (.Server e) := by
  simp [Client.get, hhtml, hstat, hbody, UntaggedResult.deserialize, he,
    UntaggedResult.intoResult]

/-- Claim C9 witness: a success-shaped page body that additionally
carries a `reason` string field decodes as both shapes and classifies as
a server fault, not success. -/
theorem claim9_witness :
    (Client.new "tok").get (Page.deserialize decodeU16)
        ⟨200, none,
          some (.obj [("current_page", .num 1), ("data", .arr []), ("from", .num 0),
            ("last_page", .num 1), ("per_page", .num 5), ("to", .num 0), ("total", .num 0),
            ("reason", .str "oops")])⟩ =
      .error (.Server ⟨none, "oops"⟩) :=
  claim9_error_variant_wins (Client.new "tok") (Page.deserialize decodeU16)
    ⟨200, none,
      some (.obj [("current_page", .num 1), ("data", .arr []), ("from", .num 0),
        ("last_page", .num 1), ("per_page", .num 5), ("to", .num 0), ("total", .num 0),
        ("reason", .str "oops")])⟩
    (.obj [("current_page", .num 1), ("data", .arr []), ("from", .num 0),
      ("last_page", .num 1), ("per_page", .num 5), ("to", .num 0), ("total", .num 0),
      ("reason", .str "oops")])
    ⟨none, "oops"⟩ ⟨1, [], 0, 1, 5, 0, 0⟩
    (by decide) (by decide) rfl rfl rfl

/-- Claim C4: error-shape detection accepts either `reason` or the
legacy `error` field name for the message, normalized into the one
`reason` field of the resulting server fault, and tolerates an absent
`error_code`, in which case the fault carries no code. -/
theorem claim4_error_shape_tolerance (s : String) (code : Nat) (hc : code < 65536) :
    ServerError.deserialize (.obj [("reason", .str s)]) = some ⟨none, s⟩ ∧
    ServerError.deserialize (.obj [("error", .str s)]) = some ⟨none, s⟩ ∧
    ServerError.deserialize (.obj [("error_code", .num code), ("reason", .str s)]) =
      some ⟨some code, s⟩ ∧
    ServerError.deserialize (.obj [("error_code", .num code), ("error", .str s)]) =
      some ⟨some code, s⟩ := by
  refine ⟨?_, ?_, ?_, ?_⟩
  · rw [seDeserialize_obj, seFold_reason_cons, seFold_nil_some]
    rfl
  · rw [seDeserialize_obj, seFold_error_cons, seFold_nil_some]
    rfl
  · rw [seDeserialize_obj, seFold_code_cons _ _ (decodeOptU16_natCast code hc),
      seFold_reason_cons, seFold_nil_some]
    rfl
  · rw [seDeserialize_obj, seFold_code_cons _ _ (decodeOptU16_natCast code hc),
      seFold_error_cons, seFold_nil_some]
    rfl

/-- Claim C4 witness: the theorem at the message "No subscriptions" and
code 3001. -/
theorem claim4_witness :
    ServerError.deserialize (.obj [("reason", .str "No subscriptions")]) =
      some ⟨none, "No subscriptions"⟩ ∧
    ServerError.deserialize (.obj [("error", .str "No subscriptions")]) =
      some ⟨none, "No subscriptions"⟩ ∧
    ServerError.deserialize
        (.obj [("error_code", .num 3001), ("reason", .str "No subscriptions")]) =
      some ⟨some 3001, "No subscriptions"⟩ ∧
    ServerError.deserialize
        (.obj [("error_code", .num 3001), ("error", .str "No subscriptions")]) =
      some ⟨some 3001, "No subscriptions"⟩ :=
  claim4_error_shape_tolerance "No subscriptions" 3001 (by decide)

/-- Claim C6: on every 2xx non-HTML response whose body is a well-formed
success body with all expected `Page` fields, classification yields
success with every field populated exactly as provided; in particular
the status-200 body
`{"current_page":1,"data":[],"from":0,"last_page":1,"per_page":5,"to":0,"total":0}`
classifies as success with an empty-data page whose `per_page` is 5. -/
theorem claim6_page_success {T : Type} (c : Client) (dec : Json → Option T) (r : Response)
    (cp f lp pp t tot : Nat) (js : List Json) (ds : List T)
    (hcp : cp < 65536) (hf : f < 65536) (hlp : lp < 65536) (hpp : pp < 65536)
    (ht : t < 65536) (htot : tot < 65536) (hds : js.mapM dec = some ds)
    (hhtml : r.isHtml = false) (hstat : 200 ≤ r.status ∧ r.status < 300)
    (hbody : r.body =
      some (.obj [("current_page", .num cp), ("data", .arr js), ("from", .num f),
                  ("last_page", .num lp), ("per_page", .num pp), ("to", .num t),
                  ("total", .num tot)])) :
    Page.deserialize dec
        (.obj [("current_page", .num cp), ("data", .arr js), ("from", .num f),
               ("last_page", .num lp), ("per_page", .num pp), ("to", .num t),
               ("total", .num tot)]) =
      some ⟨cp, ds, f, lp, pp, t, tot⟩ ∧
    c.get (Page.deserialize dec) r = .ok ⟨cp, ds, f, lp, pp, t, tot⟩ ∧
    c.get (Page.deserialize dec) ⟨200, none, some pageBody⟩ =
      .ok ⟨1, [], 0, 1, 5, 0, 0⟩ := by
  have hpage : Page.deserialize dec
      (.obj [("current_page", .num cp), ("data", .arr js), ("from", .num f),
             ("last_page", .num lp), ("per_page", .num pp), ("to", .num t),
             ("total", .num tot)]) =
      some ⟨cp, ds, f, lp, pp, t, tot⟩ :=
    Page.deserialize_spec dec _ _ _ _ _ _ _ _ cp ds f lp pp t tot
      rfl (decodeU16_natCast cp hcp)
      rfl (by show js.mapM dec = some ds; exact hds)
      rfl (decodeU16_natCast f hf)
      rfl (decodeU16_natCast lp hlp)
      rfl (decodeU16_natCast pp hpp)
      rfl (decodeU16_natCast t ht)
      rfl (decodeU16_natCast tot htot)
  have hse : ServerError.deserialize
      (.obj [("current_page", .num cp), ("data", .arr js), ("from", .num f),
             ("last_page", .num lp), ("per_page", .num pp), ("to", .num t),
             ("total", .num tot)]) = none := rfl
  have hnc : ¬ isClientError r.status := by
    unfold isClientError
    omega
  refine ⟨hpage, ?_, rfl⟩
  exact get_ok c (Page.deserialize dec) r _ _ hhtml hnc hbody hse hpage

/-- Claim C6 witness: the theorem at the concrete field values of the
spec's example body on a status-200 response, with the element decoder
of an all-numeric payload. -/
theorem claim6_witness :
    Page.deserialize decodeU16
        (.obj [("current_page", .num 1), ("data", .arr []), ("from", .num 0),
               ("last_page", .num 1), ("per_page", .num 5), ("to", .num 0),
               ("total", .num 0)]) =
      some ⟨1, [], 0, 1, 5, 0, 0⟩ ∧
    (Client.new "tok").get (Page.deserialize decodeU16)
        ⟨200, none,
          some (.obj [("current_page", .num 1), ("data", .arr []), ("from", .num 0),
                      ("last_page", .num 1), ("per_page", .num 5), ("to", .num 0),
                      ("total", .num 0)])⟩ =
      .ok ⟨1, [], 0, 1, 5, 0, 0⟩ ∧
    (Client.new "tok").get (Page.deserialize decodeU16) ⟨200, none, some pageBody⟩ =
      .ok ⟨1, [], 0, 1, 5, 0, 0⟩ :=
  claim6_page_success (Client.new "tok") decodeU16
    ⟨200, none,
      some (.obj [("current_page", .num 1), ("data", .arr []), ("from", .num 0),
                  ("last_page", .num 1), ("per_page", .num 5), ("to", .num 0),
                  ("total", .num 0)])⟩
    1 0 1 5 0 0 [] []
    (by decide) (by decide) (by decide) (by decide) (by decide) (by decide) rfl
    (by decide) (by decide) rfl

/-- Claim C8 counterexample: for the token consisting of the single
character `*`, the masked token field of the client's debug output is
the token itself, so the debug output does contain that token in
cleartext and the claim as stated fails. -/
theorem claim8_counterexample :
    Client.debugTokenField ⟨"*"⟩ = "*" ∧
    strContains (Client.debugTokenField ⟨"*"⟩) "*" = true := by
  constructor
  · rfl
  · decide

/-- Claim C8 (amended): every byte of the token is replaced by the mask
character `*`, so two clients built from tokens of equal byte length
produce identical token fields in debug output, and a token containing
any character other than `*` never appears in the masked field. -/
theorem claim8_masked_token (t₁ t₂ : String) (h : t₁.utf8ByteSize = t₂.utf8ByteSize) :
    Client.debugTokenField ⟨t₁⟩ = Client.debugTokenField ⟨t₂⟩ ∧
    ((∃ ch ∈ t₁.data, ch ≠ '*') → strContains (Client.debugTokenField ⟨t₁⟩) t₁ = false) := by
  constructor
  · simp [Client.debugTokenField, h]
  · rintro ⟨ch, hmem, hne⟩
    by_contra hcon
    rw [Bool.not_eq_false] at hcon
    unfold strContains Client.debugTokenField at hcon
    have hch : ch ∈ List.replicate t₁.utf8ByteSize '*' :=
      mem_of_listContainsSub hcon ch hmem
    exact hne (List.eq_of_mem_replicate hch)

/-- Claim C8 witness: two distinct tokens of equal byte length get
identical masked fields, and a token with non-`*` characters never
appears in its own masked field. -/
theorem claim8_witness :
    Client.debugTokenField ⟨"abc"⟩ = Client.debugTokenField ⟨"xyz"⟩ ∧
    ((∃ ch ∈ "abc".data, ch ≠ '*') →
      strContains (Client.debugTokenField ⟨"abc"⟩) "abc" = false) :=
  claim8_masked_token "abc" "xyz" rfl

/-- Claim C10: the synthesized 401 triggers exactly when the
content-type header is present, convertible to a string, and contains
the substring "html" anywhere (so `application/xhtml+xml` triggers it);
a missing or non-string content-type is treated as non-HTML, and for
non-HTML responses classification depends only on status and body. -/
theorem claim10_html_trigger {T : Type} (c : Client) (dec : Json → Option T)
    (st : Nat) (b : Option Json) (s : String) (r₁ r₂ : Response)
    (h1 : r₁.isHtml = false) (h2 : r₂.isHtml = false)
    (hs : r₁.status = r₂.status) (hb : r₁.body = r₂.body) :
    Response.isHtml ⟨st, some (.valid s), b⟩ = strContains s "html" ∧
    Response.isHtml ⟨st, none, b⟩ = false ∧
    Response.isHtml ⟨st, some .invalid, b⟩ = false ∧
    c.get dec ⟨st, some (.valid "application/xhtml+xml"), b⟩ = .error (.Client 401) ∧
    c.get dec r₁ = c.get dec r₂ := by
  have hx : Response.isHtml ⟨st, some (.valid "application/xhtml+xml"), b⟩ = true := by
    show strContains "application/xhtml+xml" "html" = true
    decide
  refine ⟨rfl, rfl, rfl, ?_, ?_⟩
  · simp [Client.get, hx, unauthorized]
  · simp only [Client.get, h1, h2, hs, hb]

/-- Claim C10 witness: the theorem at a plain-text header value, a
missing header and an unconvertible header, all at status 200. -/
theorem claim10_witness :
    Response.isHtml ⟨200, some (.valid "text/plain"), some (.obj [])⟩ =
      strContains "text/plain" "html" ∧
    Response.isHtml ⟨200, none, some (.obj [])⟩ = false ∧
    Response.isHtml ⟨200, some .invalid, some (.obj [])⟩ = false ∧
    (Client.new "tok").get decodeU16
        ⟨200, some (.valid "application/xhtml+xml"), some (.obj [])⟩ =
      .error (.Client 401) ∧
    (Client.new "tok").get decodeU16 ⟨200, none, some (.obj [])⟩ =
      (Client.new "tok").get decodeU16 ⟨200, some .invalid, some (.obj [])⟩ :=
  claim10_html_trigger (Client.new "tok") decodeU16 200 (some (.obj [])) "text/plain"
    ⟨200, none, some (.obj [])⟩ ⟨200, some .invalid, some (.obj [])⟩
    (by decide) (by decide) rfl rfl

end BuyMeACoffee
